import Mathlib

/-!
Verification model of the goxb/pkg gRPC bootstrap layer.

The Go sources modelled here are `grpc/server.go` (`NewGRPCServer` and its
options), the client connection factory (`NewGRPCConn` and its options) and
the zap logging interceptors (`UnaryServerInterceptor`,
`StreamServerInterceptor`).  Pure decision logic is translated directly
from the Go source.  External collaborators whose code is not part of this
repository — the file system, TLS parsing, and the grpc-ecosystem
middleware wrappers (interceptor chaining, retry, recovery) together with
the grpc dial-option attachment — are modelled from the contracts stated in
the design document; every such definition carries a doc comment that
starts with `Modelled from the spec:`.
-/

namespace GoxbPkg

/-- Log severities of the zap logger capability. -/
inductive Level
  | debug
  | info
  | warn
  | error
  deriving DecidableEq

/-- One structured log record: severity, message, and key/value fields
(`zap.Field`s modelled as string pairs). -/
structure LogEntry where
  level : Level
  msg : String
  fields : List (String × String)
  deriving DecidableEq

/-- gRPC status codes (`google.golang.org/grpc/codes`). -/
inductive Code
  | ok
  | cancelled
  | unknown
  | invalidArgument
  | deadlineExceeded
  | notFound
  | alreadyExists
  | permissionDenied
  | resourceExhausted
  | failedPrecondition
  | aborted
  | outOfRange
  | unimplemented
  | internal
  | unavailable
  | dataLoss
  | unauthenticated
  deriving DecidableEq

/-- `codes.Code.String()` of the grpc codes package. -/
def codeName : Code → String
  | .ok => "OK"
  | .cancelled => "Canceled"
  | .unknown => "Unknown"
  | .invalidArgument => "InvalidArgument"
  | .deadlineExceeded => "DeadlineExceeded"
  | .notFound => "NotFound"
  | .alreadyExists => "AlreadyExists"
  | .permissionDenied => "PermissionDenied"
  | .resourceExhausted => "ResourceExhausted"
  | .failedPrecondition => "FailedPrecondition"
  | .aborted => "Aborted"
  | .outOfRange => "OutOfRange"
  | .unimplemented => "Unimplemented"
  | .internal => "Internal"
  | .unavailable => "Unavailable"
  | .dataLoss => "DataLoss"
  | .unauthenticated => "Unauthenticated"

/-- A gRPC status error: every error observed by this layer carries a
status code and a description, matching `status.Status`. -/
structure GErr where
  code : Code
  msg : String
  deriving DecidableEq

/-- `status.Code(err)`: `OK` for a nil error, otherwise the error's code. -/
def statusCode : Option GErr → Code
  | none => Code.ok
  | some e => e.code

/-- Display of a status error under the `%s` verb:
`rpc error: code = <code> desc = <msg>`. -/
def errString (e : GErr) : String :=
  "rpc error: code = " ++ codeName e.code ++ " desc = " ++ e.msg

/-- The `%-12s` formatting verb: left-justified padding to width 12. -/
def padTo12 (s : String) : String :=
  s ++ String.mk (List.replicate (12 - s.length) ' ')

/-- The log message built by the logging interceptors:
`latency=%-12s %s %s` and, when the call failed, a trailing `, err=%s`. -/
def mkLogMsg (lat method : String) (code : Code) (err : Option GErr) : String :=
  match err with
  | some e =>
      "latency=" ++ padTo12 lat ++ " " ++ method ++ " " ++ codeName code
        ++ ", err=" ++ errString e
  | none =>
      "latency=" ++ padTo12 lat ++ " " ++ method ++ " " ++ codeName code

/-- Modelled from the spec: the file system and certificate-parsing
collaborators (`ioutil.ReadFile`, `x509.CertPool.AppendCertsFromPEM`,
`tls.LoadX509KeyPair` parsing), which are external to this repository.
`contents p` is the byte content of path `p` (`none` when the read fails),
`pemOK b` says whether at least one PEM certificate parses from bytes `b`,
and `pairOK cb kb` says whether cert bytes `cb` and key bytes `kb` form a
valid key pair. -/
structure FSModel where
  contents : String → Option String
  pemOK : String → Bool
  pairOK : String → String → Bool

/-- Credential-resolution error kinds named by the design document. -/
inductive CredError
  | caUnreadable
  | caInvalid
  | keyPairInvalid
  deriving DecidableEq

/-- Modelled from the spec: `tls.LoadX509KeyPair` (and
`credentials.NewServerTLSFromFile`, which loads the same pair): read the
certificate file, then the key file, then parse them as a pair; any
failure is a `KeyPairInvalid` credential error.  Returns the outcome and
the list of file paths read, in order. -/
def loadKeyPair (fs : FSModel) (certPath keyPath : String) :
    Except CredError Unit × List String :=
  match fs.contents certPath with
  | none => (Except.error CredError.keyPairInvalid, [certPath])
  | some cb =>
    match fs.contents keyPath with
    | none => (Except.error CredError.keyPairInvalid, [certPath, keyPath])
    | some kb =>
      if fs.pairOK cb kb then (Except.ok (), [certPath, keyPath])
      else (Except.error CredError.keyPairInvalid, [certPath, keyPath])

/-- The transport-security context a server ends up with. -/
inductive TransportSecurity
  | noSecurity
  | serverTLS (certPath keyPath : String)
  | mutualTLS (caPath certPath keyPath : String)
  deriving DecidableEq

/-- `ServerCredentialsConfig` of `grpc/server.go`. -/
structure ServerCredentialsConfig where
  CAPath : String
  CertPath : String
  KeyPath : String
  deriving DecidableEq

/-- Result of the credential-resolution phase of `NewGRPCServer`:
the resolved security (or a credential error), the file paths read, and
the log records emitted. -/
structure ServerBuild where
  security : Except CredError TransportSecurity
  reads : List String
  log : List LogEntry

/-- The credential-resolution phase of `NewGRPCServer`
(`grpc/server.go`, lines 73–114), translated branch by branch:
all three paths empty → no security plus an Info notice; CA empty →
server-only TLS from the cert/key pair; CA present → mutual TLS, reading
and parsing the CA bundle first and then the key pair. -/
def NewGRPCServerBuild (fs : FSModel) (c : ServerCredentialsConfig) :
    ServerBuild :=
  if c.CAPath = "" ∧ c.CertPath = "" ∧ c.KeyPath = "" then
    ⟨Except.ok TransportSecurity.noSecurity, [],
      [⟨Level.info, "No TLS keys, insecure mode", []⟩]⟩
  else if c.CAPath = "" then
    match loadKeyPair fs c.CertPath c.KeyPath with
    | (Except.ok _, rs) =>
        ⟨Except.ok (TransportSecurity.serverTLS c.CertPath c.KeyPath), rs,
          [⟨Level.info, "enable sample credentials in grpc server", []⟩]⟩
    | (Except.error e, rs) =>
        ⟨Except.error e, rs,
          [⟨Level.info, "enable sample credentials in grpc server", []⟩]⟩
  else
    match fs.contents c.CAPath with
    | none =>
        ⟨Except.error CredError.caUnreadable, [c.CAPath],
          [⟨Level.info, "enable mutual credentials in grpc server", []⟩]⟩
    | some bytes =>
      if fs.pemOK bytes then
        match loadKeyPair fs c.CertPath c.KeyPath with
        | (Except.ok _, rs) =>
            ⟨Except.ok
                (TransportSecurity.mutualTLS c.CAPath c.CertPath c.KeyPath),
              c.CAPath :: rs,
              [⟨Level.info, "enable mutual credentials in grpc server", []⟩]⟩
        | (Except.error e, rs) =>
            ⟨Except.error e, c.CAPath :: rs,
              [⟨Level.info, "enable mutual credentials in grpc server", []⟩]⟩
      else
        ⟨Except.error CredError.caInvalid, [c.CAPath],
          [⟨Level.info, "enable mutual credentials in grpc server", []⟩]⟩

/-- `ClientCredentialsConfig` of the client source file. -/
structure ClientCredentialsConfig where
  CAPath : String
  CertPath : String
  KeyPath : String
  ServerName : String
  Insecure : Bool
  deriving DecidableEq

/-- The `tls.Config` a client builds: expected server name, the CA pool
(recorded as the path whose certificates were appended, if any), and the
client certificate pair (recorded as the pair of paths it was loaded
from, if any). -/
structure ClientTLSContext where
  serverName : String
  rootCAs : Option String
  clientCerts : Option (String × String)
  deriving DecidableEq

/-- The transport security a client ends up with. -/
inductive ClientSecurity
  | insecure
  | tls (ctx : ClientTLSContext)
  deriving DecidableEq

/-- The cert/key step of client credential resolution (source lines
102–108): only when both paths are non-empty is the pair loaded. -/
def clientCertStep (fs : FSModel) (c : ClientCredentialsConfig)
    (root : Option String) (rs : List String) :
    Except CredError ClientSecurity × List String :=
  if c.CertPath ≠ "" ∧ c.KeyPath ≠ "" then
    match loadKeyPair fs c.CertPath c.KeyPath with
    | (Except.ok _, rs2) =>
        (Except.ok (ClientSecurity.tls
          ⟨c.ServerName, root, some (c.CertPath, c.KeyPath)⟩), rs ++ rs2)
    | (Except.error _, rs2) =>
        (Except.error CredError.keyPairInvalid, rs ++ rs2)
  else
    (Except.ok (ClientSecurity.tls ⟨c.ServerName, root, none⟩), rs)

/-- Client credential resolution (`NewGRPCConn`, source lines 82–111):
insecure short-circuits everything; otherwise an optional CA bundle is
read and appended, then an optional client certificate pair is loaded.
Returns the outcome and the file paths read, in order. -/
def resolveClientCreds (fs : FSModel) (c : ClientCredentialsConfig) :
    Except CredError ClientSecurity × List String :=
  if c.Insecure then
    (Except.ok ClientSecurity.insecure, [])
  else if c.CAPath = "" then
    clientCertStep fs c none []
  else
    match fs.contents c.CAPath with
    | none => (Except.error CredError.caUnreadable, [c.CAPath])
    | some bytes =>
      if fs.pemOK bytes then clientCertStep fs c (some c.CAPath) [c.CAPath]
      else (Except.error CredError.caInvalid, [c.CAPath])

/-! ### Server-side call model -/

/-- Call contexts, requests, responses and stream handles are opaque to
this layer; read them as abstract values. -/
abbrev Ctx := Nat

abbrev Req := Nat

abbrev Resp := Nat

abbrev Srv := Nat

/-- A server stream handle; `stream.Context()` is the handle itself in
this model. -/
abbrev Stream := Nat

/-- `grpc.UnaryServerInfo`. -/
structure UInfo where
  fullMethod : String

/-- `grpc.StreamServerInfo`. -/
structure SInfo where
  fullMethod : String

/-- Outcome of a unary handler: a normal Go return of `(resp, err)`, or a
runtime fault (panic) carrying the fault value. -/
inductive UOut
  | ret (resp : Option Resp) (err : Option GErr)
  | fault (v : String)
  deriving DecidableEq

/-- Outcome of a stream handler: a normal Go return of `err`, or a
runtime fault carrying the fault value. -/
inductive SOut
  | ret (err : Option GErr)
  | fault (v : String)
  deriving DecidableEq

/-- Result of executing a unary server call: its outcome together with
the log records emitted during execution, in order. -/
structure UResult where
  out : UOut
  trace : List LogEntry
  deriving DecidableEq

/-- Result of executing a stream server call. -/
structure SResult where
  out : SOut
  trace : List LogEntry
  deriving DecidableEq

abbrev UHandler := Ctx → Req → UResult

abbrev SHandler := Srv → Stream → SResult

/-- `grpc.UnaryServerInterceptor`: wraps a unary handler. -/
abbrev USInterceptor := Ctx → Req → UInfo → UHandler → UResult

/-- `grpc.StreamServerInterceptor`: wraps a stream handler. -/
abbrev SSInterceptor := Srv → Stream → SInfo → SHandler → SResult

/-- Modelled from the spec: `grpc_middleware.ChainUnaryServer` (external
middleware library), per the stated composition contract — the first
interceptor of the sequence is outermost, each one invoking the
composition of the rest as its handler. -/
def chainUnaryServer : List USInterceptor → USInterceptor
  | [] => fun ctx req _ h => h ctx req
  | i :: rest => fun ctx req info h =>
      i ctx req info (fun c r => chainUnaryServer rest c r info h)

/-- Modelled from the spec: `grpc_middleware.ChainStreamServer`, with the
same first-is-outermost composition contract. -/
def chainStreamServer : List SSInterceptor → SSInterceptor
  | [] => fun srv st _ h => h srv st
  | i :: rest => fun srv st info h =>
      i srv st info (fun sv s => chainStreamServer rest sv s info h)

/-- The log record produced by the `recoveryFn` closure of
`NewGRPCServer` (`grpc/server.go`, lines 117–120): an error-severity
record with message `recover unkown execption` and the fault value as the
`err` field.  `recoveryFn` itself returns a nil error. -/
def recoveryLogEntry (fault : String) : LogEntry :=
  ⟨Level.error, "recover unkown execption", [("err", fault)]⟩

/-- Modelled from the spec: the `grpc_recovery.UnaryServerInterceptor`
wrapper (external middleware library), per the stated containment
contract — it captures a fault raised by the wrapped handler, invokes the
configured recovery handler (here `recoveryFn`, which logs the fault at
error severity and returns nil), and returns the recovery handler's nil
error as the call result; a non-faulting call passes through unchanged. -/
def recoveryUnaryServerInterceptor : USInterceptor :=
  fun ctx req _ h =>
    match h ctx req with
    | ⟨UOut.fault f, tr⟩ =>
        ⟨UOut.ret none none, tr ++ [recoveryLogEntry f]⟩
    | r => r

/-- Modelled from the spec: the `grpc_recovery.StreamServerInterceptor`
wrapper, with the same containment contract as the unary one. -/
def recoveryStreamServerInterceptor : SSInterceptor :=
  fun srv st _ h =>
    match h srv st with
    | ⟨SOut.fault f, tr⟩ =>
        ⟨SOut.ret none, tr ++ [recoveryLogEntry f]⟩
    | r => r

/-- The effective unary server interceptor composed by `NewGRPCServer`
(`grpc/server.go`, lines 123–133): the built-in recovery interceptor
first, then the caller-supplied interceptors, chained. -/
def serverUnaryInterceptor (caller : List USInterceptor) : USInterceptor :=
  chainUnaryServer (recoveryUnaryServerInterceptor :: caller)

/-- The effective stream server interceptor composed by `NewGRPCServer`
(`grpc/server.go`, lines 127–134). -/
def serverStreamInterceptor (caller : List SSInterceptor) : SSInterceptor :=
  chainStreamServer (recoveryStreamServerInterceptor :: caller)

/-- `LoggerFeild` of the logging source file: extracts one field from the
call's context. -/
abbrev LoggerFeild := Ctx → String × String

/-- `applyLoggerFeilds`: evaluate every extractor against the context, in
order. -/
def applyLoggerFeilds (ctx : Ctx) (lfs : List LoggerFeild) :
    List (String × String) :=
  lfs.map (fun ls => ls ctx)

/-- `UnaryServerInterceptor` of the logging source file (lines 26–50):
runs the handler, classifies the terminal status code, and emits one log
record — error severity exactly for `Internal` and `Unavailable`, info
severity otherwise — then returns the handler's response and error
unchanged.  `lat` stands for the formatted wall-clock latency measured
between the two `time.Now()` calls, an input from the environment.  A
fault raised by the handler unwinds past this interceptor (no record is
emitted). -/
def UnaryServerInterceptor (lfs : List LoggerFeild) (lat : String) :
    USInterceptor :=
  fun ctx req info handler =>
    match handler ctx req with
    | ⟨UOut.fault f, tr⟩ => ⟨UOut.fault f, tr⟩
    | ⟨UOut.ret resp err, tr⟩ =>
      let code := statusCode err
      let fields := applyLoggerFeilds ctx lfs
      let msg := mkLogMsg lat info.fullMethod code err
      if code = Code.internal ∨ code = Code.unavailable then
        ⟨UOut.ret resp err, tr ++ [⟨Level.error, msg, fields⟩]⟩
      else
        ⟨UOut.ret resp err, tr ++ [⟨Level.info, msg, fields⟩]⟩

/-- `StreamServerInterceptor` of the logging source file (lines 53–78):
same classification and passthrough as the unary variant, with the
context taken from the stream. -/
def StreamServerInterceptor (lfs : List LoggerFeild) (lat : String) :
    SSInterceptor :=
  fun srv stream info handler =>
    match handler srv stream with
    | ⟨SOut.fault f, tr⟩ => ⟨SOut.fault f, tr⟩
    | ⟨SOut.ret err, tr⟩ =>
      let code := statusCode err
      let fields := applyLoggerFeilds stream lfs
      let msg := mkLogMsg lat info.fullMethod code err
      if code = Code.internal ∨ code = Code.unavailable then
        ⟨SOut.ret err, tr ++ [⟨Level.error, msg, fields⟩]⟩
      else
        ⟨SOut.ret err, tr ++ [⟨Level.info, msg, fields⟩]⟩

/-! ### Client-side retry model -/

/-- Outcome of one transport attempt of a client call: success, or a
failure that the transport classifies as transient or not. -/
inductive AttemptRes
  | ok (r : Resp)
  | fail (e : GErr) (transient : Bool)
  deriving DecidableEq

/-- Result of running the retry policy: the final outcome (the last
observed one, returned unchanged), the number of attempts made, and the
sleeps inserted between attempts, in order. -/
structure RetryRes where
  result : AttemptRes
  attempts : Nat
  sleeps : List Nat
  deriving DecidableEq

/-- Modelled from the spec: the retry loop of
`grpc_retry.UnaryClientInterceptor` / `StreamClientInterceptor`
(external middleware library), per the stated contract — attempt `i`
(1-based) runs; success returns immediately; a transient failure with
retries remaining sleeps `i * unit` and re-attempts; a non-transient
failure, or exhausted retries, returns the last observed failure
unchanged.  `call i` is the transport's outcome for attempt `i`. -/
def retryGo (unit : Nat) (call : Nat → AttemptRes) : Nat → Nat → RetryRes
  | i, 0 => ⟨call i, 1, []⟩
  | i, rem + 1 =>
    match call i with
    | AttemptRes.ok r => ⟨AttemptRes.ok r, 1, []⟩
    | AttemptRes.fail e t =>
      if t then
        let rest := retryGo unit call (i + 1) rem
        ⟨rest.result, rest.attempts + 1, i * unit :: rest.sleeps⟩
      else ⟨AttemptRes.fail e t, 1, []⟩

/-- Modelled from the spec: run the retry policy with `maxRetries`
retries after the initial attempt (`max_attempts = 0` disables retry). -/
def retryExec (maxRetries unit : Nat) (call : Nat → AttemptRes) : RetryRes :=
  retryGo unit call 1 maxRetries

/-- The retry parameters `NewGRPCConn` hands to the retry interceptor
(source lines 113–117): linear backoff with a one-second unit
(`BackoffLinear(time.Second)`), `retryMax` retries, and the configured
per-attempt timeout. -/
structure RetryConfig where
  maxRetries : Nat
  backoffUnitSec : Nat
  perRetryTimeout : Nat
  deriving DecidableEq

/-- Observable events of a client call's execution: one transport attempt
(with its 1-based index), one retry sleep (in backoff units), or one
marker emitted by an instrumented caller-supplied interceptor. -/
inductive ClientEv
  | attempt (i : Nat)
  | sleep (d : Nat)
  | mark (name : String)
  deriving DecidableEq

/-- Result of executing (part of) a client call: the attempt outcome it
settles on and the events it emitted, in order. -/
structure CCallRes where
  res : AttemptRes
  trace : List ClientEv
  deriving DecidableEq

/-- Execution of the stage of a client call below the retry interceptor,
indexed by the attempt number the retry layer is on: the transport's
outcome may differ from one attempt to the next. -/
abbrev ClientCall := Nat → CCallRes

/-- A caller-supplied client interceptor, modelled as a wrapper of the
stage below it; retries above it re-run it once per attempt. -/
abbrev CUInterceptor := ClientCall → ClientCall

/-- Modelled from the spec: `grpc_middleware.ChainUnaryClient` /
`ChainStreamClient` (external middleware library), per the stated
composition contract — the first interceptor of the sequence is
outermost. -/
def chainClient : List CUInterceptor → ClientCall → ClientCall
  | [], base => base
  | i :: rest, base => i (chainClient rest base)

/-- Modelled from the spec: the retry interceptor's per-call loop, this
time keeping the full event trace: attempt `i` runs the whole inner
stage at index `i`; a transient failure with retries remaining appends a
sleep of `i * unit` and re-runs the inner stage at `i + 1`. -/
def retryCallGo (unit : Nat) (inner : ClientCall) : Nat → Nat → CCallRes
  | i, 0 => inner i
  | i, rem + 1 =>
    match inner i with
    | ⟨AttemptRes.ok r, tr⟩ => ⟨AttemptRes.ok r, tr⟩
    | ⟨AttemptRes.fail e t, tr⟩ =>
      if t then
        let rest := retryCallGo unit inner (i + 1) rem
        ⟨rest.res, tr ++ ClientEv.sleep (i * unit) :: rest.trace⟩
      else ⟨AttemptRes.fail e t, tr⟩

/-- Modelled from the spec: one full client call through the retry
interceptor with `maxRetries` retries, starting at attempt 1. -/
def retryClientCall (maxRetries unit : Nat) (inner : ClientCall) : CCallRes :=
  retryCallGo unit inner 1 maxRetries

/-- `clientOptions` of the client source file.  The `logger` field of the
Go struct is omitted: `NewGRPCConn` never consults it. -/
structure clientOptions where
  retryMax : Nat
  retryTimeout : Nat
  creds : ClientCredentialsConfig
  streamInterceptors : List CUInterceptor
  unaryInterceptors : List CUInterceptor

/-- The retry parameters `NewGRPCConn` configures (source lines 113–117):
one-second linear backoff unit, `retryMax` retries, the configured
per-attempt timeout. -/
def connRetryConfig (o : clientOptions) : RetryConfig :=
  ⟨o.retryMax, 1, o.retryTimeout⟩

/-- The retry policy as configured by `NewGRPCConn`, applied to a
transport. -/
def connRetryExec (o : clientOptions) (call : Nat → AttemptRes) : RetryRes :=
  retryExec (connRetryConfig o).maxRetries (connRetryConfig o).backoffUnitSec call

/-- The effective unary client call of a connection built by
`NewGRPCConn` (source lines 118–123): the built-in retry interceptor is
outermost, wrapping the chain of caller-supplied unary interceptors over
the transport.  The dial-option attachment itself is external to this
repository and is modelled from the spec's factory contract. -/
def connEffectiveUnaryCall (o : clientOptions) (base : ClientCall) : CCallRes :=
  retryClientCall o.retryMax 1 (chainClient o.unaryInterceptors base)

/-- The effective streaming client call of a connection built by
`NewGRPCConn`, mirroring `connEffectiveUnaryCall` for the stream
interceptor list. -/
def connEffectiveStreamCall (o : clientOptions) (base : ClientCall) : CCallRes :=
  retryClientCall o.retryMax 1 (chainClient o.streamInterceptors base)

/-- What `NewGRPCConn` resolves before dialing: the client security
context and the retry parameters. -/
structure ConnBuild where
  security : ClientSecurity
  retry : RetryConfig
  deriving DecidableEq

/-- The credential-resolution and retry-configuration phase of
`NewGRPCConn` (source lines 78–125): resolve client credentials, failing
fast on a credential error, then attach the retry parameters.  Returns
the outcome and the file paths read, in order. -/
def NewGRPCConnBuild (fs : FSModel) (o : clientOptions) :
    Except CredError ConnBuild × List String :=
  match resolveClientCreds fs o.creds with
  | (Except.ok s, rs) => (Except.ok ⟨s, connRetryConfig o⟩, rs)
  | (Except.error e, rs) => (Except.error e, rs)

/-! ### Instrumentation used by the theorems -/

/-- A caller-supplied client interceptor that emits a marker on the way
in and passes the call through unchanged. -/
def markInt (name : String) : CUInterceptor :=
  fun inner i =>
    match inner i with
    | ⟨res, tr⟩ => ⟨res, ClientEv.mark name :: tr⟩

/-- A transport that fails transiently on every attempt, recording each
attempt it serves. -/
def failBase (e : Nat → GErr) : ClientCall :=
  fun i => ⟨AttemptRes.fail (e i) true, [ClientEv.attempt i]⟩

/-- A caller-supplied unary server interceptor that emits a debug marker
on the way in and passes the call through. -/
def markUS (name : String) : USInterceptor :=
  fun ctx req _ h =>
    match h ctx req with
    | ⟨o, tr⟩ => ⟨o, ⟨Level.debug, name, []⟩ :: tr⟩

/-- A caller-supplied unary server interceptor that emits a debug marker
and then raises a runtime fault without calling its handler. -/
def faultUS (name fault : String) : USInterceptor :=
  fun _ _ _ _ => ⟨UOut.fault fault, [⟨Level.debug, name, []⟩]⟩

/-- Stream analog of `markUS`. -/
def markSS (name : String) : SSInterceptor :=
  fun srv st _ h =>
    match h srv st with
    | ⟨o, tr⟩ => ⟨o, ⟨Level.debug, name, []⟩ :: tr⟩

/-- Stream analog of `faultUS`. -/
def faultSS (name fault : String) : SSInterceptor :=
  fun _ _ _ _ => ⟨SOut.fault fault, [⟨Level.debug, name, []⟩]⟩

/-- An empty file system: no path is readable, nothing parses. -/
def fs0 : FSModel :=
  ⟨fun _ => none, fun _ => false, fun _ _ => false⟩

/-- A unary handler that raises a runtime fault. -/
def faultUHandler : UHandler := fun _ _ => ⟨UOut.fault "boom", []⟩

/-- A stream handler that raises a runtime fault. -/
def faultSHandler : SHandler := fun _ _ => ⟨SOut.fault "boom", []⟩

/-- A unary handler that fails with an `Internal` status. -/
def internalUHandler : UHandler :=
  fun _ _ => ⟨UOut.ret (some 1) (some ⟨Code.internal, "x"⟩), []⟩

/-- A stream handler that succeeds. -/
def okSHandler : SHandler := fun _ _ => ⟨SOut.ret none, []⟩

/-- A file system holding exactly one readable file, `ca.pem`, whose
bytes parse as PEM certificates but never as a key pair. -/
def fsCA : FSModel :=
  ⟨fun p => if p = "ca.pem" then some "CERT" else none,
    fun _ => true, fun _ _ => false⟩

/-- A concrete insecure client configuration. -/
def oIns : clientOptions :=
  ⟨3, 5, ⟨"a", "b", "c", "sn", true⟩, [], []⟩

/-! ### Helper lemmas -/

theorem retryGo_persistFail (unit : Nat) (e : Nat → GErr) :
    ∀ rem i, retryGo unit (fun j => AttemptRes.fail (e j) true) i rem =
      ⟨AttemptRes.fail (e (i + rem)) true, rem + 1,
        (List.range' i rem).map (fun k => k * unit)⟩ := by
  intro rem
  induction rem with
  | zero =>
      intro i
      simp [retryGo]
  | succ n ih =>
      intro i
      have h1 : i + 1 + n = i + (n + 1) := by omega
      simp [retryGo, ih (i + 1), h1, List.range'_succ]

theorem retryCallGo_marked_trace (a : String) (e : Nat → GErr) :
    ∀ rem i, retryCallGo 1 (markInt a (failBase e)) i rem =
      ⟨AttemptRes.fail (e (i + rem)) true,
        ((List.range' i rem).flatMap
          (fun k => [ClientEv.mark a, ClientEv.attempt k, ClientEv.sleep k]))
          ++ [ClientEv.mark a, ClientEv.attempt (i + rem)]⟩ := by
  intro rem
  induction rem with
  | zero =>
      intro i
      simp [retryCallGo, markInt, failBase]
  | succ n ih =>
      intro i
      have h1 : i + 1 + n = i + (n + 1) := by omega
      simp [retryCallGo, markInt, failBase, ih (i + 1), h1,
        List.range'_succ]

/-! ### Claims -/

/-- Claim C1: for every client configuration, the effective unary and
streaming chains built by `NewGRPCConn` have the built-in retry
interceptor outermost, so each retry attempt re-executes the full inner
chain (including caller-supplied interceptors): against a persistently
transiently-failing transport, the caller interceptor's marker is
re-emitted before every one of the `retryMax + 1` attempts. -/
theorem retry_outermost_reruns_inner_chain_per_attempt
    (N t : Nat) (cr : ClientCredentialsConfig) (a b : String)
    (e : Nat → GErr) :
    (connEffectiveUnaryCall ⟨N, t, cr, [markInt b], [markInt a]⟩
        (failBase e)).trace =
      ((List.range' 1 N).flatMap
        (fun k => [ClientEv.mark a, ClientEv.attempt k,
          ClientEv.sleep (k * 1)]))
        ++ [ClientEv.mark a, ClientEv.attempt (N + 1)] ∧
    (connEffectiveStreamCall ⟨N, t, cr, [markInt b], [markInt a]⟩
        (failBase e)).trace =
      ((List.range' 1 N).flatMap
        (fun k => [ClientEv.mark b, ClientEv.attempt k,
          ClientEv.sleep (k * 1)]))
        ++ [ClientEv.mark b, ClientEv.attempt (N + 1)] := by
  have hu := retryCallGo_marked_trace a e N 1
  have hs := retryCallGo_marked_trace b e N 1
  have h1 : 1 + N = N + 1 := by omega
  constructor
  · simpa [connEffectiveUnaryCall, retryClientCall, chainClient, h1]
      using congrArg CCallRes.trace hu
  · simpa [connEffectiveStreamCall, retryClientCall, chainClient, h1]
      using congrArg CCallRes.trace hs

/-- Claim C2: for every server call whose handler raises a runtime
fault, the recovery interceptor installed by `NewGRPCServer` emits an
error-severity log record carrying the fault value and returns a
successful (nil-error) result to the caller, masking the failure. -/
theorem recovery_masks_fault_and_logs_error
    (ctx req : Nat) (info : UInfo) (h : UHandler) (f : String)
    (tru : List LogEntry) (srv st : Nat) (sinfo : SInfo) (sh : SHandler)
    (g : String) (trs : List LogEntry)
    (hu : h ctx req = ⟨UOut.fault f, tru⟩)
    (hs : sh srv st = ⟨SOut.fault g, trs⟩) :
    ((serverUnaryInterceptor [] ctx req info h).out = UOut.ret none none ∧
      recoveryLogEntry f ∈ (serverUnaryInterceptor [] ctx req info h).trace) ∧
    ((serverStreamInterceptor [] srv st sinfo sh).out = SOut.ret none ∧
      recoveryLogEntry g ∈
        (serverStreamInterceptor [] srv st sinfo sh).trace) := by
  refine ⟨⟨?_, ?_⟩, ⟨?_, ?_⟩⟩ <;>
    simp [serverUnaryInterceptor, serverStreamInterceptor, chainUnaryServer,
      chainStreamServer, recoveryUnaryServerInterceptor,
      recoveryStreamServerInterceptor, hu, hs]

/-- Witness for claim C2 at a concrete faulting handler. -/
theorem recovery_masks_fault_and_logs_error_witness :
    ((serverUnaryInterceptor [] 0 0 ⟨"/m"⟩ faultUHandler).out =
        UOut.ret none none ∧
      recoveryLogEntry "boom" ∈
        (serverUnaryInterceptor [] 0 0 ⟨"/m"⟩ faultUHandler).trace) ∧
    ((serverStreamInterceptor [] 0 0 ⟨"/m"⟩ faultSHandler).out =
        SOut.ret none ∧
      recoveryLogEntry "boom" ∈
        (serverStreamInterceptor [] 0 0 ⟨"/m"⟩ faultSHandler).trace) :=
  recovery_masks_fault_and_logs_error 0 0 ⟨"/m"⟩ faultUHandler "boom" []
    0 0 ⟨"/m"⟩ faultSHandler "boom" [] rfl rfl

/-- Claim C3: for a server built by `NewGRPCServer` with caller-supplied
interceptors `[A, B]`, the composed chain has the built-in recovery
interceptor outermost: a fault raised inside `B` is contained at the
recovery layer (the call ends in a nil result with the recovery log
record emitted last), and `A`'s marker is emitted before `B`'s on the
inbound path. -/
theorem server_chain_recovery_outermost_ordering
    (a b f g : String) (ctx req : Nat) (info : UInfo) (h : UHandler)
    (srv st : Nat) (sinfo : SInfo) (sh : SHandler) :
    serverUnaryInterceptor [markUS a, faultUS b f] ctx req info h =
      ⟨UOut.ret none none,
        [⟨Level.debug, a, []⟩, ⟨Level.debug, b, []⟩, recoveryLogEntry f]⟩ ∧
    serverStreamInterceptor [markSS a, faultSS b g] srv st sinfo sh =
      ⟨SOut.ret none,
        [⟨Level.debug, a, []⟩, ⟨Level.debug, b, []⟩, recoveryLogEntry g]⟩ := by
  exact ⟨rfl, rfl⟩

/-- Claim C4: for every call wrapped by the unary or streaming logging
interceptor, the single emitted log record has error severity exactly
when the call's terminal status code is `Internal` or `Unavailable`, and
info severity for every other status, including success. -/
theorem logging_severity_internal_unavailable_error_else_info
    (lfs : List LoggerFeild) (lat : String) (ctx req : Nat) (info : UInfo)
    (h : UHandler) (resp : Option Resp) (err : Option GErr)
    (tru : List LogEntry) (srv st : Nat) (sinfo : SInfo) (sh : SHandler)
    (serr : Option GErr) (trs : List LogEntry)
    (hu : h ctx req = ⟨UOut.ret resp err, tru⟩)
    (hs : sh srv st = ⟨SOut.ret serr, trs⟩) :
    (∃ en : LogEntry,
      (UnaryServerInterceptor lfs lat ctx req info h).trace = tru ++ [en] ∧
      (en.level = Level.error ↔
        (statusCode err = Code.internal ∨ statusCode err = Code.unavailable)) ∧
      (en.level = Level.error ∨ en.level = Level.info)) ∧
    (∃ en : LogEntry,
      (StreamServerInterceptor lfs lat srv st sinfo sh).trace = trs ++ [en] ∧
      (en.level = Level.error ↔
        (statusCode serr = Code.internal ∨
          statusCode serr = Code.unavailable)) ∧
      (en.level = Level.error ∨ en.level = Level.info)) := by
  constructor
  · by_cases hc : statusCode err = Code.internal ∨ statusCode err = Code.unavailable
    · refine ⟨⟨Level.error, mkLogMsg lat info.fullMethod (statusCode err) err,
        applyLoggerFeilds ctx lfs⟩, ?_, ?_, ?_⟩ <;>
        simp [UnaryServerInterceptor, hu, hc]
    · refine ⟨⟨Level.info, mkLogMsg lat info.fullMethod (statusCode err) err,
        applyLoggerFeilds ctx lfs⟩, ?_, ?_, ?_⟩ <;>
        simp [UnaryServerInterceptor, hu, hc]
  · by_cases hc : statusCode serr = Code.internal ∨ statusCode serr = Code.unavailable
    · refine ⟨⟨Level.error, mkLogMsg lat sinfo.fullMethod (statusCode serr) serr,
        applyLoggerFeilds st lfs⟩, ?_, ?_, ?_⟩ <;>
        simp [StreamServerInterceptor, hs, hc]
    · refine ⟨⟨Level.info, mkLogMsg lat sinfo.fullMethod (statusCode serr) serr,
        applyLoggerFeilds st lfs⟩, ?_, ?_, ?_⟩ <;>
        simp [StreamServerInterceptor, hs, hc]

/-- Witness for claim C4: an `Internal` failure on the unary side and a
success on the stream side. -/
theorem logging_severity_internal_unavailable_error_else_info_witness :
    (∃ en : LogEntry,
      (UnaryServerInterceptor [] "1ms" 0 0 ⟨"/svc/M"⟩ internalUHandler).trace =
        [] ++ [en] ∧
      (en.level = Level.error ↔
        (statusCode (some ⟨Code.internal, "x"⟩) = Code.internal ∨
          statusCode (some ⟨Code.internal, "x"⟩) = Code.unavailable)) ∧
      (en.level = Level.error ∨ en.level = Level.info)) ∧
    (∃ en : LogEntry,
      (StreamServerInterceptor [] "1ms" 0 0 ⟨"/svc/M"⟩ okSHandler).trace =
        [] ++ [en] ∧
      (en.level = Level.error ↔
        (statusCode none = Code.internal ∨
          statusCode none = Code.unavailable)) ∧
      (en.level = Level.error ∨ en.level = Level.info)) :=
  logging_severity_internal_unavailable_error_else_info [] "1ms" 0 0 ⟨"/svc/M"⟩
    internalUHandler (some 1) (some ⟨Code.internal, "x"⟩) [] 0 0 ⟨"/svc/M"⟩
    okSHandler none [] rfl rfl

/-- Claim C5: the retry interceptor configured by `NewGRPCConn` makes
exactly `retryMax + 1` attempts on a persistently failing call and
returns the last observed failure unchanged; with `retryMax = 0` this is
exactly one attempt. -/
theorem retry_attempts_exactly_max_plus_one
    (o : clientOptions) (e : Nat → GErr) :
    (connRetryExec o (fun j => AttemptRes.fail (e j) true)).attempts =
        o.retryMax + 1 ∧
      (connRetryExec o (fun j => AttemptRes.fail (e j) true)).result =
        AttemptRes.fail (e (o.retryMax + 1)) true := by
  have h := retryGo_persistFail 1 e o.retryMax 1
  have h1 : 1 + o.retryMax = o.retryMax + 1 := by omega
  rw [h1] at h
  constructor <;> simp [connRetryExec, retryExec, connRetryConfig, h]

/-- Claim C6 (amended): for a server configuration in which all of the
CA, certificate and key paths are empty, `NewGRPCServer` succeeds
without error, configures no transport security, and emits an
info-severity (not warning-severity) notice about running without
TLS. -/
theorem server_empty_creds_info_notice (fs : FSModel) :
    NewGRPCServerBuild fs ⟨"", "", ""⟩ =
      ⟨Except.ok TransportSecurity.noSecurity, [],
        [⟨Level.info, "No TLS keys, insecure mode", []⟩]⟩ := by
  rfl

/-- Counterexample to claim C6 as stated: with every path empty, the
whole log emitted by the construction is one info-severity record; no
warning-severity record is emitted. -/
theorem no_tls_notice_not_warning_cex :
    (NewGRPCServerBuild fs0 ⟨"", "", ""⟩).log =
        [⟨Level.info, "No TLS keys, insecure mode", []⟩] ∧
      ((NewGRPCServerBuild fs0 ⟨"", "", ""⟩).log.any
        (fun en => decide (en.level = Level.warn))) = false := by
  exact ⟨rfl, rfl⟩

/-- Claim C7: for every server configuration with a usable CA path but a
missing certificate or key path, `NewGRPCServer` fails with a
`KeyPairInvalid` credential error (and hence produces no server). -/
theorem server_ca_set_missing_keypair_fails
    (fs : FSModel) (c : ServerCredentialsConfig) (cab : String)
    (hca : c.CAPath ≠ "")
    (hread : fs.contents c.CAPath = some cab)
    (hpem : fs.pemOK cab = true)
    (hmiss : c.CertPath = "" ∨ c.KeyPath = "")
    (hempty : fs.contents "" = none) :
    (NewGRPCServerBuild fs c).security =
      Except.error CredError.keyPairInvalid := by
  rcases hmiss with h0 | h0
  · cases hk : fs.contents c.KeyPath <;>
      simp [NewGRPCServerBuild, hca, hread, hpem, loadKeyPair, h0, hempty, hk]
  · cases hcrt : fs.contents c.CertPath <;>
      simp [NewGRPCServerBuild, hca, hread, hpem, loadKeyPair, h0, hempty, hcrt]

/-- Witness for claim C7: a readable, PEM-valid CA with both cert and
key paths empty. -/
theorem server_ca_set_missing_keypair_fails_witness :
    (NewGRPCServerBuild fsCA ⟨"ca.pem", "", ""⟩).security =
      Except.error CredError.keyPairInvalid :=
  server_ca_set_missing_keypair_fails fsCA ⟨"ca.pem", "", ""⟩ "CERT"
    (by decide) rfl rfl (Or.inl rfl) rfl

/-- Claim C8: for every client configuration with the insecure flag set,
`NewGRPCConn` resolves to the insecure transport, constructs no TLS
context and reads no file path, regardless of the CA, certificate, key
and server-name fields. -/
theorem client_insecure_no_tls_no_reads
    (fs : FSModel) (o : clientOptions) (hins : o.creds.Insecure = true) :
    NewGRPCConnBuild fs o =
      (Except.ok ⟨ClientSecurity.insecure, connRetryConfig o⟩, []) := by
  simp [NewGRPCConnBuild, resolveClientCreds, hins]

/-- Witness for claim C8: an insecure configuration whose CA, cert and
key fields are all populated. -/
theorem client_insecure_no_tls_no_reads_witness :
    NewGRPCConnBuild fs0 oIns =
      (Except.ok ⟨ClientSecurity.insecure, connRetryConfig oIns⟩, []) :=
  client_insecure_no_tls_no_reads fs0 oIns rfl

/-- Claim C9: with the retry parameters `NewGRPCConn` configures (linear
backoff, one-second unit), the delay inserted after the `i`-th attempt
fails transiently with attempts remaining is `i` times the backoff
unit. -/
theorem linear_backoff_delay_equals_attempt_index
    (o : clientOptions) (e : Nat → GErr) :
    (connRetryExec o (fun j => AttemptRes.fail (e j) true)).sleeps =
      (List.range' 1 (connRetryConfig o).maxRetries).map
        (fun i => i * (connRetryConfig o).backoffUnitSec) := by
  have h := retryGo_persistFail 1 e o.retryMax 1
  simp [connRetryExec, retryExec, connRetryConfig, h]

/-- Claim C10: the unary and streaming logging interceptors return the
handler's outcome (response value and error) to the caller unchanged,
whatever that outcome is; logging never alters the call's result. -/
theorem logging_returns_handler_outcome_unchanged
    (lfs : List LoggerFeild) (lat : String) (ctx req : Nat) (info : UInfo)
    (h : UHandler) (srv st : Nat) (sinfo : SInfo) (sh : SHandler) :
    (UnaryServerInterceptor lfs lat ctx req info h).out = (h ctx req).out ∧
    (StreamServerInterceptor lfs lat srv st sinfo sh).out = (sh srv st).out := by
  constructor
  · rcases hu : h ctx req with ⟨o1, t1⟩
    cases o1 with
    | ret resp err => simp only [UnaryServerInterceptor, hu]; split <;> rfl
    | fault f => simp [UnaryServerInterceptor, hu]
  · rcases hs : sh srv st with ⟨o2, t2⟩
    cases o2 with
    | ret err => simp only [StreamServerInterceptor, hs]; split <;> rfl
    | fault f => simp [StreamServerInterceptor, hs]

end GoxbPkg
